import Mathlib

/-!
Verification of the ParkRunServiceBot role-assignment core (src/bot.py).

The database state is embedded shallowly:
* the `roles` table is a `List Role` (one row per role);
* the `volunteers` table is a `List Volunteer` (one row per assignment);
* the `users` table is a `List UserRow`.

`add_volunteer_to_event`, `remove_volunteer_from_event` and `get_event_data`
are translated from the Python source.  A possible storage failure of the
final INSERT (the only statement that can change the store) is modelled by
an explicit `insert_error : Option String` argument: `none` means the INSERT
and COMMIT succeed, `some m` means the driver raises an exception whose text
is `m`, in which case the source rolls the transaction back and returns the
caught message.
-/

namespace ParkRun

/-- A row of the `roles` table: `role_id`, `role_full_name`, `is_uniq`, `sort_id`. -/
structure Role where
  role_id : Nat
  role_full_name : String
  is_uniq : Bool
  sort_id : Nat
  deriving DecidableEq

/-- A row of the `volunteers` table: one committed assignment. -/
structure Volunteer where
  user_id : Nat
  role_id : Nat
  event_id : Nat
  deriving DecidableEq

/-- A row of the `users` table (the columns `get_event_data` reads). -/
structure UserRow where
  user_id : Nat
  full_name : Option String
  telegram_name : Option String
  deriving DecidableEq

/-- One row of the roster query result of `get_event_data`:
`role_id`, `role_full_name`, `COALESCE(U.full_name, '')`, `U.telegram_name`. -/
structure RosterRow where
  role_id : Nat
  role_full_name : String
  volunteer_name : String
  telegram_name : Option String
  deriving DecidableEq

/-- First hardcoded exclusion pair of `add_volunteer_to_event`. -/
def exclusion1 : List String := ["⏱️ Секундомер", "📱 Сканер штрих-кодов"]

/-- Second hardcoded exclusion pair of `add_volunteer_to_event`. -/
def exclusion2 : List String := ["⏱️ Секундомер", "🎫 Раздача карточек позиций"]

/-- The structured outcome of one `add_volunteer_to_event` call, one
constructor per `return` site of the source function. -/
inductive AssignOutcome where
  | roleNotFound
  | alreadyAssigned
  | roleTaken
  | exclusionConflict (conflicting_role : String)
  | storageError (message : String)
  | committed
  deriving DecidableEq

/-- A single ASCII apostrophe, used by the messages of the source. -/
def sq : String := String.singleton (Char.ofNat 39)

/-- Wraps a string in apostrophes the way the Python f-strings do. -/
def quoted (s : String) : String := sq ++ s ++ sq

/-- The exact `(ok, message)` pair each return site of
`add_volunteer_to_event` produces. -/
def outcomeMessage (role_text : String) : AssignOutcome → Bool × String
  | .roleNotFound =>
      (false, "Роль " ++ quoted role_text ++ " не найдена")
  | .alreadyAssigned =>
      (false, "Ты уже записан на позицию " ++ quoted role_text ++ ". Пожалуйста, выбери другую")
  | .roleTaken =>
      (false, "Позиция " ++ quoted role_text ++ " уже занята. Пожалуйста, выбери другую")
  | .exclusionConflict c =>
      (false, "Ты уже записан на позицию " ++ quoted c ++ ", нельзя также записаться на " ++ quoted role_text)
  | .storageError m =>
      (false, "Ошибка при добавлении волонтера: " ++ m)
  | .committed => (true, "Ok")

/-- The `SELECT R.role_full_name FROM volunteers V JOIN roles R ...` query of
the exclusion check: names of the roles `user_id` already holds at
`event_id` whose full name lies in `exclusion1 + exclusion2`. -/
def conflictingRoles (roles : List Role) (store : List Volunteer)
    (user_id event_id : Nat) : List String :=
  ((store.filter (fun v => v.user_id == user_id && v.event_id == event_id)).flatMap
      (fun v => (roles.filter (fun r => r.role_id == v.role_id)).map
        (fun r => r.role_full_name))).filter
    (fun n => decide (n ∈ exclusion1 ++ exclusion2))

/-- The double `for` loop of the exclusion check: for each exclusion list in
order, if the requested role is in the list, return the first already-held
conflicting role of that list. -/
def findConflict (role_text : String) (conflicting_roles : List String) : Option String :=
  match (if role_text ∈ exclusion1 then
          conflicting_roles.find? (fun c => decide (c ∈ exclusion1))
        else none) with
  | some c => some c
  | none =>
      if role_text ∈ exclusion2 then
        conflicting_roles.find? (fun c => decide (c ∈ exclusion2))
      else none

/-- The decision core of `add_volunteer_to_event` (src/bot.py lines 238-315):
role lookup by full name, duplicate-self check, uniqueness check, exclusion
check, then INSERT (which either commits or raises `insert_error`).
Returns the outcome together with the store after the call. -/
def assignOutcome (roles : List Role) (store : List Volunteer)
    (insert_error : Option String) (role_text : String)
    (user_id event_id : Nat) : AssignOutcome × List Volunteer :=
  match roles.find? (fun r => r.role_full_name == role_text) with
  | none => (.roleNotFound, store)
  | some role =>
    if store.any (fun v =>
        v.user_id == user_id && v.role_id == role.role_id && v.event_id == event_id) then
      (.alreadyAssigned, store)
    else if role.is_uniq &&
        store.any (fun v => v.role_id == role.role_id && v.event_id == event_id) then
      (.roleTaken, store)
    else
      match findConflict role_text (conflictingRoles roles store user_id event_id) with
      | some c => (.exclusionConflict c, store)
      | none =>
        match insert_error with
        | some m => (.storageError m, store)
        | none => (.committed, store ++ [⟨user_id, role.role_id, event_id⟩])

/-- `add_volunteer_to_event(role_text, user_id, event_id)`: the outcome
rendered as the `(bool, message)` pair the source returns, together with the
volunteers table after the call. -/
def add_volunteer_to_event (roles : List Role) (store : List Volunteer)
    (insert_error : Option String) (role_text : String)
    (user_id event_id : Nat) : (Bool × String) × List Volunteer :=
  let r := assignOutcome roles store insert_error role_text user_id event_id
  (outcomeMessage role_text r.1, r.2)

/-- `remove_volunteer_from_event(user_id, event_id)`:
`DELETE FROM volunteers WHERE event_id = %s AND user_id = %s`, returning
`cursor.rowcount > 0` and the table after the call. -/
def remove_volunteer_from_event (store : List Volunteer)
    (user_id event_id : Nat) : Bool × List Volunteer :=
  let remaining := store.filter (fun v => !(v.event_id == event_id && v.user_id == user_id))
  (remaining.length < store.length, remaining)

/-- The rows the roster query produces for one roles row `r`: the LEFT JOIN
against the volunteers of the event (one output row per matching volunteers
row, or a single empty-assignee row when none match) followed by the LEFT
JOIN against users (`COALESCE(U.full_name, '')`). -/
def rosterRowsForRole (users : List UserRow) (store : List Volunteer)
    (event_ids : List Nat) (r : Role) : List RosterRow :=
  match store.filter (fun v =>
      v.role_id == r.role_id && event_ids.contains v.event_id) with
  | [] => [⟨r.role_id, r.role_full_name, "", none⟩]
  | vs =>
    vs.flatMap (fun v =>
      match users.filter (fun u => u.user_id == v.user_id) with
      | [] => [⟨r.role_id, r.role_full_name, "", none⟩]
      | us => us.map (fun u =>
          ⟨r.role_id, r.role_full_name, u.full_name.getD (""), u.telegram_name⟩))

/-- `get_event_data`: `roles LEFT JOIN volunteers ON role_id AND event_id IN
event_ids LEFT JOIN users ON user_id ORDER BY sort_id`, returning `none`
when the result set is empty (`if not positions: return None`).
`event_ids` is the result of the `SELECT event_id FROM events ...` subquery. -/
def get_event_data (roles : List Role) (store : List Volunteer)
    (users : List UserRow) (event_ids : List Nat) : Option (List RosterRow) :=
  let rows :=
    (roles.mergeSort (fun a b => decide (a.sort_id ≤ b.sort_id))).flatMap
      (rosterRowsForRole users store event_ids)
  if rows.isEmpty then none else some rows

/-- The single roster row a role contributes when it has at most one
assignee: the first matching volunteers row joined to the first matching
users row, or the empty-assignee row.  This is the amended specification of
one roster entry, to be compared with `rosterRowsForRole`. -/
def rosterRowFor (users : List UserRow) (store : List Volunteer)
    (event_ids : List Nat) (r : Role) : RosterRow :=
  match (store.filter (fun v =>
      v.role_id == r.role_id && event_ids.contains v.event_id)).head? with
  | none => ⟨r.role_id, r.role_full_name, "", none⟩
  | some v =>
    match (users.filter (fun u => u.user_id == v.user_id)).head? with
    | none => ⟨r.role_id, r.role_full_name, "", none⟩
    | some u => ⟨r.role_id, r.role_full_name, u.full_name.getD (""), u.telegram_name⟩

/-- One Engine operation: an `Assign` (with its modelled storage behaviour)
or an `Unassign`. -/
inductive Op where
  | assign (role_text : String) (user_id event_id : Nat) (insert_error : Option String)
  | unassign (user_id event_id : Nat)

/-- The store after one operation (the `(ok, reason)` result is discarded). -/
def applyOp (roles : List Role) (store : List Volunteer) : Op → List Volunteer
  | .assign rt u e ierr => (assignOutcome roles store ierr rt u e).2
  | .unassign u e => (remove_volunteer_from_event store u e).2

/-- The store reached from the empty store by a sequence of operations. -/
def runOps (roles : List Role) (ops : List Op) : List Volunteer :=
  ops.foldl (applyOp roles) []

/-- `user_id` holds a role named `n` at `event_id`: some volunteers row of
the user at the event joins to a roles row whose full name is `n`. -/
def holdsName (roles : List Role) (store : List Volunteer)
    (user_id event_id : Nat) (n : String) : Prop :=
  ∃ v ∈ store, v.user_id = user_id ∧ v.event_id = event_id ∧
    ∃ r ∈ roles, r.role_id = v.role_id ∧ r.role_full_name = n

/-! ### Sample catalogue used by witnesses and counterexamples -/

/-- A sample roles table shaped like the production one: the coordinator is
unique, the three exclusion-pair roles and two further roles are not. -/
def sampleRoles : List Role :=
  [⟨1, "Координатор волонтеров", true, 1⟩,
   ⟨2, "Маршал", false, 2⟩,
   ⟨3, "⏱️ Секундомер", false, 3⟩,
   ⟨4, "📱 Сканер штрих-кодов", false, 4⟩,
   ⟨5, "🎫 Раздача карточек позиций", false, 5⟩,
   ⟨6, "☕ Буфет", false, 6⟩]

/-! ### Helper lemmas about the decision core -/

theorem mem_conflictingRoles {n : String} {roles : List Role} {s : List Volunteer}
    {u e : Nat} :
    n ∈ conflictingRoles roles s u e ↔
      (holdsName roles s u e n ∧ (n ∈ exclusion1 ∨ n ∈ exclusion2)) := by
  simp only [conflictingRoles, holdsName, List.mem_filter, List.mem_flatMap, List.mem_map,
    decide_eq_true_eq, List.mem_append, Bool.and_eq_true, beq_iff_eq]
  constructor
  · rintro ⟨⟨v, ⟨hv, hvu, hve⟩, r, ⟨hr, hrid⟩, hname⟩, hmem⟩
    exact ⟨⟨v, hv, hvu, hve, r, hr, hrid, hname⟩, hmem⟩
  · rintro ⟨⟨v, hv, hvu, hve, r, hr, hrid, hname⟩, hmem⟩
    exact ⟨⟨v, ⟨hv, hvu, hve⟩, r, ⟨hr, hrid⟩, hname⟩, hmem⟩

theorem filter_eq_nil_of_any_eq_false {α : Type} {l : List α} {p : α → Bool}
    (h : l.any p = false) : l.filter p = [] := by
  simp only [List.any_eq_false] at h
  rw [List.filter_eq_nil_iff]
  intro a ha
  simpa using h a ha

/-- If the requested role lies in one of the two hardcoded lists and an
already-held conflicting role lies in the same list, the double loop of the
exclusion check returns some conflicting role of a list shared with the
requested role. -/
theorem findConflict_of_shared {g : List String} {conflicting : List String} {rt c : String}
    (hg : g = exclusion1 ∨ g = exclusion2) (hrtg : rt ∈ g)
    (hc : c ∈ conflicting) (hcg : c ∈ g) :
    ∃ d, findConflict rt conflicting = some d ∧ d ∈ conflicting ∧
      ((rt ∈ exclusion1 ∧ d ∈ exclusion1) ∨ (rt ∈ exclusion2 ∧ d ∈ exclusion2)) := by
  rcases hg with hg | hg
  · subst hg
    have hsome : (conflicting.find? (fun x => decide (x ∈ exclusion1))).isSome := by
      rw [List.find?_isSome]
      exact ⟨c, hc, by simpa using hcg⟩
    obtain ⟨d, hd⟩ := Option.isSome_iff_exists.mp hsome
    refine ⟨d, ?_, List.mem_of_find?_eq_some hd,
      Or.inl ⟨hrtg, by simpa using List.find?_some hd⟩⟩
    simp [findConflict, hrtg, hd]
  · subst hg
    by_cases h1 : rt ∈ exclusion1
    · cases hfst : conflicting.find? (fun x => decide (x ∈ exclusion1)) with
      | some d =>
          refine ⟨d, ?_, List.mem_of_find?_eq_some hfst,
            Or.inl ⟨h1, by simpa using List.find?_some hfst⟩⟩
          simp [findConflict, h1, hfst]
      | none =>
          have hsome : (conflicting.find? (fun x => decide (x ∈ exclusion2))).isSome := by
            rw [List.find?_isSome]
            exact ⟨c, hc, by simpa using hcg⟩
          obtain ⟨d, hd⟩ := Option.isSome_iff_exists.mp hsome
          refine ⟨d, ?_, List.mem_of_find?_eq_some hd,
            Or.inr ⟨hrtg, by simpa using List.find?_some hd⟩⟩
          simp [findConflict, h1, hfst, hrtg, hd]
    · have hsome : (conflicting.find? (fun x => decide (x ∈ exclusion2))).isSome := by
        rw [List.find?_isSome]
        exact ⟨c, hc, by simpa using hcg⟩
      obtain ⟨d, hd⟩ := Option.isSome_iff_exists.mp hsome
      refine ⟨d, ?_, List.mem_of_find?_eq_some hd,
        Or.inr ⟨hrtg, by simpa using List.find?_some hd⟩⟩
      simp [findConflict, h1, hrtg, hd]

theorem assignOutcome_of_not_found {roles : List Role} {store : List Volunteer}
    {ierr : Option String} {role_text : String} {user_id event_id : Nat}
    (h : roles.find? (fun r => r.role_full_name == role_text) = none) :
    assignOutcome roles store ierr role_text user_id event_id = (.roleNotFound, store) := by
  simp [assignOutcome, h]

theorem assignOutcome_of_dup {roles : List Role} {store : List Volunteer}
    {ierr : Option String} {role_text : String} {user_id event_id : Nat} {role : Role}
    (hfind : roles.find? (fun r => r.role_full_name == role_text) = some role)
    (hdup : store.any (fun v =>
      v.user_id == user_id && v.role_id == role.role_id && v.event_id == event_id) = true) :
    assignOutcome roles store ierr role_text user_id event_id = (.alreadyAssigned, store) := by
  simp [assignOutcome, hfind, hdup]

theorem assignOutcome_of_taken {roles : List Role} {store : List Volunteer}
    {ierr : Option String} {role_text : String} {user_id event_id : Nat} {role : Role}
    (hfind : roles.find? (fun r => r.role_full_name == role_text) = some role)
    (hdup : store.any (fun v =>
      v.user_id == user_id && v.role_id == role.role_id && v.event_id == event_id) = false)
    (huniq : (role.is_uniq &&
      store.any (fun v => v.role_id == role.role_id && v.event_id == event_id)) = true) :
    assignOutcome roles store ierr role_text user_id event_id = (.roleTaken, store) := by
  simp [assignOutcome, hfind, hdup, huniq]

theorem assignOutcome_of_conflict {roles : List Role} {store : List Volunteer}
    {ierr : Option String} {role_text : String} {user_id event_id : Nat} {role : Role}
    {c : String}
    (hfind : roles.find? (fun r => r.role_full_name == role_text) = some role)
    (hdup : store.any (fun v =>
      v.user_id == user_id && v.role_id == role.role_id && v.event_id == event_id) = false)
    (huniq : (role.is_uniq &&
      store.any (fun v => v.role_id == role.role_id && v.event_id == event_id)) = false)
    (hconf : findConflict role_text (conflictingRoles roles store user_id event_id) = some c) :
    assignOutcome roles store ierr role_text user_id event_id = (.exclusionConflict c, store) := by
  simp [assignOutcome, hfind, hdup, huniq, hconf]

theorem assignOutcome_of_storage {roles : List Role} {store : List Volunteer}
    {role_text : String} {user_id event_id : Nat} {role : Role} {m : String}
    (hfind : roles.find? (fun r => r.role_full_name == role_text) = some role)
    (hdup : store.any (fun v =>
      v.user_id == user_id && v.role_id == role.role_id && v.event_id == event_id) = false)
    (huniq : (role.is_uniq &&
      store.any (fun v => v.role_id == role.role_id && v.event_id == event_id)) = false)
    (hconf : findConflict role_text (conflictingRoles roles store user_id event_id) = none) :
    assignOutcome roles store (some m) role_text user_id event_id = (.storageError m, store) := by
  simp [assignOutcome, hfind, hdup, huniq, hconf]

theorem assignOutcome_of_commit {roles : List Role} {store : List Volunteer}
    {role_text : String} {user_id event_id : Nat} {role : Role}
    (hfind : roles.find? (fun r => r.role_full_name == role_text) = some role)
    (hdup : store.any (fun v =>
      v.user_id == user_id && v.role_id == role.role_id && v.event_id == event_id) = false)
    (huniq : (role.is_uniq &&
      store.any (fun v => v.role_id == role.role_id && v.event_id == event_id)) = false)
    (hconf : findConflict role_text (conflictingRoles roles store user_id event_id) = none) :
    assignOutcome roles store none role_text user_id event_id =
      (.committed, store ++ [⟨user_id, role.role_id, event_id⟩]) := by
  simp [assignOutcome, hfind, hdup, huniq, hconf]

/-- Every branch of `assignOutcome` either leaves the store unchanged or,
only in the committed branch (role resolved, all checks passed, no storage
error), appends exactly the requested row. -/
theorem assignOutcome_store_cases (roles : List Role) (store : List Volunteer)
    (ierr : Option String) (role_text : String) (user_id event_id : Nat) :
    (assignOutcome roles store ierr role_text user_id event_id).2 = store ∨
    (∃ role, roles.find? (fun r => r.role_full_name == role_text) = some role ∧
      store.any (fun v =>
        v.user_id == user_id && v.role_id == role.role_id && v.event_id == event_id) = false ∧
      (role.is_uniq &&
        store.any (fun v => v.role_id == role.role_id && v.event_id == event_id)) = false ∧
      findConflict role_text (conflictingRoles roles store user_id event_id) = none ∧
      ierr = none ∧
      (assignOutcome roles store ierr role_text user_id event_id).2 =
        store ++ [⟨user_id, role.role_id, event_id⟩]) := by
  cases hfind : roles.find? (fun r => r.role_full_name == role_text) with
  | none => exact Or.inl (by simp [assignOutcome_of_not_found hfind])
  | some role =>
    cases hdup : store.any (fun v =>
        v.user_id == user_id && v.role_id == role.role_id && v.event_id == event_id) with
    | true => exact Or.inl (by simp [assignOutcome_of_dup hfind hdup])
    | false =>
      cases huniq : (role.is_uniq &&
          store.any (fun v => v.role_id == role.role_id && v.event_id == event_id)) with
      | true => exact Or.inl (by simp [assignOutcome_of_taken hfind hdup huniq])
      | false =>
        cases hconf : findConflict role_text (conflictingRoles roles store user_id event_id) with
        | some c => exact Or.inl (by simp [assignOutcome_of_conflict hfind hdup huniq hconf])
        | none =>
          cases ierr with
          | some m => exact Or.inl (by simp [assignOutcome_of_storage hfind hdup huniq hconf])
          | none =>
            exact Or.inr ⟨role, rfl, hdup, huniq, rfl, rfl,
              by simp [assignOutcome_of_commit hfind hdup huniq hconf]⟩

/-! ### The claims -/

/-- Claim C1: `add_volunteer_to_event` evaluates its checks in the fixed
order role-existence, duplicate-self, uniqueness, exclusion, commit, and
short-circuits on the first failing check: whenever the earlier checks pass
and a check fails, the returned failure is the one belonging to that check,
whatever the rest of the store, the storage behaviour or the later checks
would say.  In particular an unresolvable `role_text` fails with the
role-not-found message for every store. -/
theorem claim_C1_check_order :
    (∀ (roles : List Role) (store : List Volunteer) (ierr : Option String)
        (role_text : String) (user_id event_id : Nat),
      roles.find? (fun r => r.role_full_name == role_text) = none →
      add_volunteer_to_event roles store ierr role_text user_id event_id =
        (outcomeMessage role_text .roleNotFound, store)) ∧
    (∀ (roles : List Role) (store : List Volunteer) (ierr : Option String)
        (role_text : String) (user_id event_id : Nat) (role : Role),
      roles.find? (fun r => r.role_full_name == role_text) = some role →
      store.any (fun v =>
        v.user_id == user_id && v.role_id == role.role_id && v.event_id == event_id) = true →
      add_volunteer_to_event roles store ierr role_text user_id event_id =
        (outcomeMessage role_text .alreadyAssigned, store)) ∧
    (∀ (roles : List Role) (store : List Volunteer) (ierr : Option String)
        (role_text : String) (user_id event_id : Nat) (role : Role),
      roles.find? (fun r => r.role_full_name == role_text) = some role →
      store.any (fun v =>
        v.user_id == user_id && v.role_id == role.role_id && v.event_id == event_id) = false →
      (role.is_uniq &&
        store.any (fun v => v.role_id == role.role_id && v.event_id == event_id)) = true →
      add_volunteer_to_event roles store ierr role_text user_id event_id =
        (outcomeMessage role_text .roleTaken, store)) ∧
    (∀ (roles : List Role) (store : List Volunteer) (ierr : Option String)
        (role_text : String) (user_id event_id : Nat) (role : Role) (c : String),
      roles.find? (fun r => r.role_full_name == role_text) = some role →
      store.any (fun v =>
        v.user_id == user_id && v.role_id == role.role_id && v.event_id == event_id) = false →
      (role.is_uniq &&
        store.any (fun v => v.role_id == role.role_id && v.event_id == event_id)) = false →
      findConflict role_text (conflictingRoles roles store user_id event_id) = some c →
      add_volunteer_to_event roles store ierr role_text user_id event_id =
        (outcomeMessage role_text (.exclusionConflict c), store)) ∧
    (∀ (roles : List Role) (store : List Volunteer)
        (role_text : String) (user_id event_id : Nat) (role : Role),
      roles.find? (fun r => r.role_full_name == role_text) = some role →
      store.any (fun v =>
        v.user_id == user_id && v.role_id == role.role_id && v.event_id == event_id) = false →
      (role.is_uniq &&
        store.any (fun v => v.role_id == role.role_id && v.event_id == event_id)) = false →
      findConflict role_text (conflictingRoles roles store user_id event_id) = none →
      add_volunteer_to_event roles store none role_text user_id event_id =
        ((true, "Ok"), store ++ [⟨user_id, role.role_id, event_id⟩])) := by
  refine ⟨?_, ?_, ?_, ?_, ?_⟩
  · intro roles store ierr rt u e h
    simp [add_volunteer_to_event, assignOutcome_of_not_found h]
  · intro roles store ierr rt u e role hfind hdup
    simp [add_volunteer_to_event, assignOutcome_of_dup hfind hdup]
  · intro roles store ierr rt u e role hfind hdup huniq
    simp [add_volunteer_to_event, assignOutcome_of_taken hfind hdup huniq]
  · intro roles store ierr rt u e role c hfind hdup huniq hconf
    simp [add_volunteer_to_event, assignOutcome_of_conflict hfind hdup huniq hconf]
  · intro roles store rt u e role hfind hdup huniq hconf
    simp [add_volunteer_to_event, assignOutcome_of_commit hfind hdup huniq hconf,
      outcomeMessage]

/-- Witness for C1: the five clauses at concrete inputs. -/
theorem claim_C1_check_order_witness :
    (add_volunteer_to_event sampleRoles [⟨9, 9, 9⟩] none ("Нет такой роли") 1 1 =
      (outcomeMessage ("Нет такой роли") .roleNotFound, [⟨9, 9, 9⟩])) ∧
    (add_volunteer_to_event sampleRoles [⟨1, 2, 1⟩] none ("Маршал") 1 1 =
      (outcomeMessage ("Маршал") .alreadyAssigned, [⟨1, 2, 1⟩])) ∧
    (add_volunteer_to_event sampleRoles [⟨2, 1, 1⟩] none ("Координатор волонтеров") 3 1 =
      (outcomeMessage ("Координатор волонтеров") .roleTaken, [⟨2, 1, 1⟩])) ∧
    (add_volunteer_to_event sampleRoles [⟨1, 4, 1⟩] none ("⏱️ Секундомер") 1 1 =
      (outcomeMessage ("⏱️ Секундомер")
        (.exclusionConflict ("📱 Сканер штрих-кодов")), [⟨1, 4, 1⟩])) ∧
    (add_volunteer_to_event sampleRoles [] none ("Маршал") 1 1 =
      ((true, "Ok"), [⟨1, 2, 1⟩])) :=
  ⟨claim_C1_check_order.1 sampleRoles [⟨9, 9, 9⟩] none ("Нет такой роли") 1 1 (by rfl),
   claim_C1_check_order.2.1 sampleRoles [⟨1, 2, 1⟩] none ("Маршал") 1 1
     ⟨2, "Маршал", false, 2⟩ (by rfl) (by rfl),
   claim_C1_check_order.2.2.1 sampleRoles [⟨2, 1, 1⟩] none ("Координатор волонтеров") 3 1
     ⟨1, "Координатор волонтеров", true, 1⟩ (by rfl) (by rfl) (by rfl),
   claim_C1_check_order.2.2.2.1 sampleRoles [⟨1, 4, 1⟩] none ("⏱️ Секундомер") 1 1
     ⟨3, "⏱️ Секундомер", false, 3⟩ ("📱 Сканер штрих-кодов")
     (by rfl) (by rfl) (by rfl) (by rfl),
   claim_C1_check_order.2.2.2.2 sampleRoles [] ("Маршал") 1 1
     ⟨2, "Маршал", false, 2⟩ (by rfl) (by rfl) (by rfl) (by rfl)⟩

/-- Claim C6: `remove_volunteer_from_event(user, event)` removes every
volunteers row of that `(user, event)` pair — all roles the user holds at
the event — keeps every other row, and returns `true` exactly when at least
one row was removed (removing zero rows returns `false`, not an error). -/
theorem claim_C6_unassign_all :
    ∀ (store : List Volunteer) (user_id event_id : Nat),
      (∀ v : Volunteer,
        v ∈ (remove_volunteer_from_event store user_id event_id).2 ↔
          (v ∈ store ∧ ¬(v.user_id = user_id ∧ v.event_id = event_id))) ∧
      ((remove_volunteer_from_event store user_id event_id).1 = true ↔
        ∃ v ∈ store, v.user_id = user_id ∧ v.event_id = event_id) := by
  intro store u e
  constructor
  · intro v
    simp [remove_volunteer_from_event, List.mem_filter]
    tauto
  · have hiff : (remove_volunteer_from_event store u e).1 = true ↔
        (store.filter (fun v => !(v.event_id == e && v.user_id == u))).length <
          store.length := by
      simp [remove_volunteer_from_event]
    rw [hiff, List.length_filter_lt_length_iff_exists]
    constructor
    · rintro ⟨v, hv, h⟩
      simp at h
      exact ⟨v, hv, h.2, h.1⟩
    · rintro ⟨v, hv, hvu, hve⟩
      exact ⟨v, hv, by simp [hvu, hve]⟩

/-- Claim C7: one `add_volunteer_to_event` call is atomic on the store:
either it returns `ok = true` and the store after the call is the store
before plus exactly the one requested row, or it returns `ok = false` (for
whatever reason, a storage error included) and the store is exactly as it
was before the call. -/
theorem claim_C7_atomic :
    ∀ (roles : List Role) (store : List Volunteer) (ierr : Option String)
      (role_text : String) (user_id event_id : Nat),
      ((add_volunteer_to_event roles store ierr role_text user_id event_id).1.1 = true ∧
        ∃ role, roles.find? (fun r => r.role_full_name == role_text) = some role ∧
          (add_volunteer_to_event roles store ierr role_text user_id event_id).2 =
            store ++ [⟨user_id, role.role_id, event_id⟩]) ∨
      ((add_volunteer_to_event roles store ierr role_text user_id event_id).1.1 = false ∧
        (add_volunteer_to_event roles store ierr role_text user_id event_id).2 = store) := by
  intro roles store ierr rt u e
  cases hfind : roles.find? (fun r => r.role_full_name == rt) with
  | none => exact Or.inr (by simp [add_volunteer_to_event, assignOutcome_of_not_found hfind,
      outcomeMessage])
  | some role =>
    cases hdup : store.any (fun v =>
        v.user_id == u && v.role_id == role.role_id && v.event_id == e) with
    | true => exact Or.inr (by simp [add_volunteer_to_event,
        assignOutcome_of_dup hfind hdup, outcomeMessage])
    | false =>
      cases huniq : (role.is_uniq &&
          store.any (fun v => v.role_id == role.role_id && v.event_id == e)) with
      | true => exact Or.inr (by simp [add_volunteer_to_event,
          assignOutcome_of_taken hfind hdup huniq, outcomeMessage])
      | false =>
        cases hconf : findConflict rt (conflictingRoles roles store u e) with
        | some c => exact Or.inr (by simp [add_volunteer_to_event,
            assignOutcome_of_conflict hfind hdup huniq hconf, outcomeMessage])
        | none =>
          cases ierr with
          | some m => exact Or.inr (by simp [add_volunteer_to_event,
              assignOutcome_of_storage hfind hdup huniq hconf, outcomeMessage])
          | none =>
            refine Or.inl ⟨?_, role, rfl, ?_⟩ <;>
              simp [add_volunteer_to_event, assignOutcome_of_commit hfind hdup huniq hconf,
                outcomeMessage]

/-- Claim C10: the exclusion check is keyed on exactly the three hardcoded
display names forming the two overlapping pairs `exclusion1` and
`exclusion2`; a request whose `role_text` is none of the three can never
fail with an exclusion conflict, whatever the store holds — it can only
fail via role existence, duplicate self, uniqueness, or a storage error. -/
theorem claim_C10_hardcoded_exclusions :
    exclusion1 = ["⏱️ Секундомер", "📱 Сканер штрих-кодов"] ∧
    exclusion2 = ["⏱️ Секундомер", "🎫 Раздача карточек позиций"] ∧
    ∀ (roles : List Role) (store : List Volunteer) (ierr : Option String)
      (role_text : String) (user_id event_id : Nat),
      role_text ≠ "⏱️ Секундомер" →
      role_text ≠ "📱 Сканер штрих-кодов" →
      role_text ≠ "🎫 Раздача карточек позиций" →
      ∀ c : String,
        (assignOutcome roles store ierr role_text user_id event_id).1 ≠
          .exclusionConflict c := by
  refine ⟨rfl, rfl, ?_⟩
  intro roles store ierr rt u e h1 h2 h3 c
  have hne1 : rt ∉ exclusion1 := by simp [exclusion1, h1, h2]
  have hne2 : rt ∉ exclusion2 := by simp [exclusion2, h1, h3]
  have hconf : findConflict rt (conflictingRoles roles store u e) = none := by
    simp [findConflict, hne1, hne2]
  cases hfind : roles.find? (fun r => r.role_full_name == rt) with
  | none => simp [assignOutcome_of_not_found hfind]
  | some role =>
    cases hdup : store.any (fun v =>
        v.user_id == u && v.role_id == role.role_id && v.event_id == e) with
    | true => simp [assignOutcome_of_dup hfind hdup]
    | false =>
      cases huniq : (role.is_uniq &&
          store.any (fun v => v.role_id == role.role_id && v.event_id == e)) with
      | true => simp [assignOutcome_of_taken hfind hdup huniq]
      | false =>
        cases ierr with
        | some m => simp [assignOutcome_of_storage hfind hdup huniq hconf]
        | none => simp [assignOutcome_of_commit hfind hdup huniq hconf]

/-- Witness for C10: a user already holding the stopwatch role can still be
given a role outside the three hardcoded names without an exclusion
conflict. -/
theorem claim_C10_hardcoded_exclusions_witness :
    (assignOutcome sampleRoles [⟨1, 3, 1⟩] none ("Маршал") 1 1).1 ≠
      AssignOutcome.exclusionConflict ("⏱️ Секундомер") :=
  claim_C10_hardcoded_exclusions.2.2 sampleRoles [⟨1, 3, 1⟩] none ("Маршал") 1 1
    (by decide) (by decide) (by decide) ("⏱️ Секундомер")

theorem any_eq_false_of_filter_eq_nil {α : Type} {l : List α} {p : α → Bool}
    (h : l.filter p = []) : l.any p = false := by
  rw [List.any_eq_false]
  intro x hx
  rw [List.filter_eq_nil_iff] at h
  simpa using h x hx

/-- Counterexample to claim C4: user 7 already holds role 2 (Маршал) at
event 5, yet assigning the different role ☕ Буфет succeeds and a second
assignment row is created — no explicit unassign is required and the user
now holds two roles at the event. -/
theorem claim_C4_counterexample :
    add_volunteer_to_event sampleRoles [⟨7, 2, 5⟩] none ("☕ Буфет") 7 5 =
      ((true, "Ok"), [⟨7, 2, 5⟩, ⟨7, 6, 5⟩]) := by
  decide

/-- Claim C4 as amended: holding a different role at the event does not by
itself make `add_volunteer_to_event` reject — when the requested role
resolves, the user does not already hold it, it is not a taken unique role
and no hardcoded exclusion pair fires, the call commits a second assignment
even though the user already holds another role at the same event; only the
exclusion pairs enforce any one-of semantics. -/
theorem claim_C4_second_role_allowed :
    ∀ (roles : List Role) (store : List Volunteer) (role_text : String)
      (user_id event_id : Nat) (role : Role) (v : Volunteer),
      v ∈ store → v.user_id = user_id → v.event_id = event_id →
      v.role_id ≠ role.role_id →
      roles.find? (fun r => r.role_full_name == role_text) = some role →
      store.any (fun w =>
        w.user_id == user_id && w.role_id == role.role_id && w.event_id == event_id) = false →
      (role.is_uniq &&
        store.any (fun w => w.role_id == role.role_id && w.event_id == event_id)) = false →
      findConflict role_text (conflictingRoles roles store user_id event_id) = none →
      add_volunteer_to_event roles store none role_text user_id event_id =
        ((true, "Ok"), store ++ [⟨user_id, role.role_id, event_id⟩]) := by
  intro roles store rt u e role v _ _ _ _ hfind hdup huniq hconf
  simp [add_volunteer_to_event, assignOutcome_of_commit hfind hdup huniq hconf,
    outcomeMessage]

/-- Witness for the amended C4 at the counterexample input. -/
theorem claim_C4_second_role_allowed_witness :
    add_volunteer_to_event sampleRoles [⟨7, 2, 5⟩] none ("☕ Буфет") 7 5 =
      ((true, "Ok"), [⟨7, 2, 5⟩] ++ [⟨7, 6, 5⟩]) :=
  claim_C4_second_role_allowed sampleRoles [⟨7, 2, 5⟩] ("☕ Буфет") 7 5
    ⟨6, "☕ Буфет", false, 6⟩ ⟨7, 2, 5⟩ (by decide) (by decide) (by decide) (by decide)
    (by decide) (by decide) (by decide) (by decide)

/-- Counterexample to claim C5: user 3 holds nothing at event 1, but the
unique role Координатор волонтеров is already taken by user 2, so the first
of the two `Assign` calls already returns `ok = false` (RoleTaken), not
`ok = true` as the claim states for every initial state where the caller
holds nothing at the event. -/
theorem claim_C5_counterexample :
    (([⟨2, 1, 1⟩] : List Volunteer).filter
      (fun v => v.user_id == 3 && v.event_id == 1) = []) ∧
    (add_volunteer_to_event sampleRoles [⟨2, 1, 1⟩] none
      ("Координатор волонтеров") 3 1).1.1 = false := by
  decide

/-- Claim C5 as amended: if additionally, when the requested role is
unique, no assignment for it exists at the event (a non-unique role may
freely be held by other users), then assigning twice in sequence from a
state where the user holds nothing at the event yields `ok = true` then
`ok = false` with the already-assigned-same-role message, and exactly one
row for `(user, role, event)` exists afterwards. -/
theorem claim_C5_idempotent_duplicate :
    ∀ (roles : List Role) (store : List Volunteer) (role_text : String)
      (user_id event_id : Nat) (role : Role),
      roles.find? (fun r => r.role_full_name == role_text) = some role →
      (role.is_uniq = true →
        store.filter (fun v => v.role_id == role.role_id && v.event_id == event_id) = []) →
      store.filter (fun v => v.user_id == user_id && v.event_id == event_id) = [] →
      (add_volunteer_to_event roles store none role_text user_id event_id).1 = (true, "Ok") ∧
      (add_volunteer_to_event roles store none role_text user_id event_id).2 =
        store ++ [⟨user_id, role.role_id, event_id⟩] ∧
      (add_volunteer_to_event roles (store ++ [⟨user_id, role.role_id, event_id⟩]) none
          role_text user_id event_id).1 =
        outcomeMessage role_text .alreadyAssigned ∧
      (add_volunteer_to_event roles (store ++ [⟨user_id, role.role_id, event_id⟩]) none
          role_text user_id event_id).2 =
        store ++ [⟨user_id, role.role_id, event_id⟩] ∧
      ((store ++ [(⟨user_id, role.role_id, event_id⟩ : Volunteer)]).filter (fun v =>
        v.user_id == user_id && v.role_id == role.role_id && v.event_id == event_id)).length
        = 1 := by
  intro roles store rt u e role hfind hrole huser
  have hdup : store.any (fun v =>
      v.user_id == u && v.role_id == role.role_id && v.event_id == e) = false := by
    rw [List.any_eq_false]
    intro v hv
    have h2 := (List.filter_eq_nil_iff.mp huser) v hv
    simp only [Bool.and_eq_true, beq_iff_eq, not_and] at h2 ⊢
    tauto
  have huniq : (role.is_uniq &&
      store.any (fun v => v.role_id == role.role_id && v.event_id == e)) = false := by
    cases hu : role.is_uniq with
    | false => simp
    | true =>
        have hany := any_eq_false_of_filter_eq_nil (hrole hu)
        simp [hany]
  have hconfl : conflictingRoles roles store u e = [] := by
    simp [conflictingRoles, huser]
  have hconf : findConflict rt (conflictingRoles roles store u e) = none := by
    simp [findConflict, hconfl]
  have hfirst := assignOutcome_of_commit hfind hdup huniq hconf
  have hdup2 : (store ++ [(⟨u, role.role_id, e⟩ : Volunteer)]).any (fun v =>
      v.user_id == u && v.role_id == role.role_id && v.event_id == e) = true := by
    rw [List.any_append]
    simp
  have hsecond : assignOutcome roles (store ++ [⟨u, role.role_id, e⟩]) none rt u e =
      (.alreadyAssigned, store ++ [⟨u, role.role_id, e⟩]) :=
    assignOutcome_of_dup hfind hdup2
  have hfiltered : store.filter (fun v =>
      v.user_id == u && v.role_id == role.role_id && v.event_id == e) = [] :=
    filter_eq_nil_of_any_eq_false hdup
  refine ⟨?_, ?_, ?_, ?_, ?_⟩
  · simp [add_volunteer_to_event, hfirst, outcomeMessage]
  · simp [add_volunteer_to_event, hfirst]
  · simp [add_volunteer_to_event, hsecond]
  · simp [add_volunteer_to_event, hsecond]
  · rw [List.filter_append, hfiltered]
    simp

/-- Witness for the amended C5: user 1 signs up for the non-unique Маршал
twice at event 1 while user 9 already holds that same role at the event —
the first call still succeeds and the second is the duplicate decline. -/
theorem claim_C5_idempotent_duplicate_witness :
    (add_volunteer_to_event sampleRoles [⟨9, 2, 1⟩] none ("Маршал") 1 1).1 = (true, "Ok") ∧
    (add_volunteer_to_event sampleRoles [⟨9, 2, 1⟩] none ("Маршал") 1 1).2 =
      [⟨9, 2, 1⟩] ++ [⟨1, 2, 1⟩] ∧
    (add_volunteer_to_event sampleRoles ([⟨9, 2, 1⟩] ++ [⟨1, 2, 1⟩]) none
        ("Маршал") 1 1).1 = outcomeMessage ("Маршал") .alreadyAssigned ∧
    (add_volunteer_to_event sampleRoles ([⟨9, 2, 1⟩] ++ [⟨1, 2, 1⟩]) none
        ("Маршал") 1 1).2 = [⟨9, 2, 1⟩] ++ [⟨1, 2, 1⟩] ∧
    (([⟨9, 2, 1⟩] ++ [⟨1, 2, 1⟩] : List Volunteer).filter (fun v =>
      v.user_id == 1 && v.role_id == 2 && v.event_id == 1)).length = 1 :=
  claim_C5_idempotent_duplicate sampleRoles [⟨9, 2, 1⟩] ("Маршал") 1 1
    ⟨2, "Маршал", false, 2⟩ (by decide) (by decide) (by decide)

/-- Counterexample to claim C8: after all in-process checks pass, a storage
error raised by the INSERT is caught, but the returned failure reason is the
raw storage error text behind a fixed prefix — the raw text is leaked to
the caller rather than mapped to the RoleTaken/ExclusionConflict shape. -/
theorem claim_C8_counterexample :
    (add_volunteer_to_event sampleRoles []
        (some ("duplicate key value violates unique constraint")) ("Маршал") 1 1).1 =
      (false, "Ошибка при добавлении волонтера: " ++
        "duplicate key value violates unique constraint") := by
  decide

/-- Claim C8 as amended: a storage error raised by the INSERT after the
in-process checks passed is caught — the call still returns the ordinary
`(ok = false, reason)` shape and the store is rolled back unchanged — but
the failure reason embeds the raw storage error text after the fixed prefix
"Ошибка при добавлении волонтера: " instead of the mapped
RoleTaken/ExclusionConflict wording. -/
theorem claim_C8_storage_error_caught :
    ∀ (roles : List Role) (store : List Volunteer) (role_text : String)
      (user_id event_id : Nat) (role : Role) (m : String),
      roles.find? (fun r => r.role_full_name == role_text) = some role →
      store.any (fun v =>
        v.user_id == user_id && v.role_id == role.role_id && v.event_id == event_id) = false →
      (role.is_uniq &&
        store.any (fun v => v.role_id == role.role_id && v.event_id == event_id)) = false →
      findConflict role_text (conflictingRoles roles store user_id event_id) = none →
      add_volunteer_to_event roles store (some m) role_text user_id event_id =
        ((false, "Ошибка при добавлении волонтера: " ++ m), store) := by
  intro roles store rt u e role m hfind hdup huniq hconf
  simp [add_volunteer_to_event, assignOutcome_of_storage hfind hdup huniq hconf,
    outcomeMessage]

/-- Witness for the amended C8 at the counterexample input. -/
theorem claim_C8_storage_error_caught_witness :
    add_volunteer_to_event sampleRoles []
        (some ("duplicate key value violates unique constraint")) ("Маршал") 1 1 =
      ((false, "Ошибка при добавлении волонтера: " ++
        "duplicate key value violates unique constraint"), []) :=
  claim_C8_storage_error_caught sampleRoles [] ("Маршал") 1 1
    ⟨2, "Маршал", false, 2⟩ ("duplicate key value violates unique constraint")
    (by decide) (by decide) (by decide) (by decide)

/-! ### The uniqueness invariant (C2) -/

theorem uniq_inv_step (roles : List Role) (hN : (roles.map Role.role_id).Nodup)
    (store : List Volunteer) (op : Op)
    (h : ∀ r ∈ roles, r.is_uniq = true → ∀ e : Nat,
      (store.filter (fun v => v.role_id == r.role_id && v.event_id == e)).length ≤ 1) :
    ∀ r ∈ roles, r.is_uniq = true → ∀ e : Nat,
      ((applyOp roles store op).filter
        (fun v => v.role_id == r.role_id && v.event_id == e)).length ≤ 1 := by
  intro r hr hu e
  cases op with
  | unassign u0 e0 =>
      have hsub : List.Sublist
          (((remove_volunteer_from_event store u0 e0).2).filter
            (fun v => v.role_id == r.role_id && v.event_id == e))
          (store.filter (fun v => v.role_id == r.role_id && v.event_id == e)) :=
        (show List.Sublist
            (store.filter (fun v => !(v.event_id == e0 && v.user_id == u0))) store
          from List.filter_sublist store).filter _
      exact le_trans hsub.length_le (h r hr hu e)
  | assign rt u0 e0 ierr =>
      rcases assignOutcome_store_cases roles store ierr rt u0 e0 with
        hcase | ⟨role, hfind, hdup, huniq, hconf, hie, hstore⟩
      · simp only [applyOp]
        rw [hcase]
        exact h r hr hu e
      · simp only [applyOp]
        rw [hstore, List.filter_append, List.length_append]
        cases hx : ((role.role_id == r.role_id) && (e0 == e)) with
        | false =>
            have hnil : List.filter (fun v => v.role_id == r.role_id && v.event_id == e)
                [(⟨u0, role.role_id, e0⟩ : Volunteer)] = [] := by
              simp only [List.filter_cons, List.filter_nil]
              rw [show ((⟨u0, role.role_id, e0⟩ : Volunteer).role_id == r.role_id &&
                (⟨u0, role.role_id, e0⟩ : Volunteer).event_id == e) = false from hx]
              simp
            rw [hnil]
            simpa using h r hr hu e
        | true =>
            have h1 : role.role_id = r.role_id ∧ e0 = e := by simpa using hx
            have hrole_mem : role ∈ roles := List.mem_of_find?_eq_some hfind
            have hreq : role = r := List.inj_on_of_nodup_map hN hrole_mem hr h1.1
            have huniq2 : role.is_uniq = true := by rw [hreq]; exact hu
            rw [huniq2] at huniq
            simp only [Bool.true_and] at huniq
            have hnil : store.filter
                (fun v => v.role_id == role.role_id && v.event_id == e0) = [] :=
              filter_eq_nil_of_any_eq_false huniq
            rw [← h1.1, ← h1.2, hnil]
            simp

theorem uniq_inv_foldl (roles : List Role) (hN : (roles.map Role.role_id).Nodup) :
    ∀ (ops : List Op) (store : List Volunteer),
      (∀ r ∈ roles, r.is_uniq = true → ∀ e : Nat,
        (store.filter (fun v => v.role_id == r.role_id && v.event_id == e)).length ≤ 1) →
      ∀ r ∈ roles, r.is_uniq = true → ∀ e : Nat,
        ((ops.foldl (applyOp roles) store).filter
          (fun v => v.role_id == r.role_id && v.event_id == e)).length ≤ 1 := by
  intro ops
  induction ops with
  | nil => intro store h; exact h
  | cons op rest ih =>
      intro store h
      exact ih (applyOp roles store op) (uniq_inv_step roles hN store op h)

/-- Claim C2: from the empty store, after any sequence of assign/unassign
operations, every unique role has at most one assignment per event (the
catalogue is keyed by `role_id`); and an assign call for a unique role that
is already held at the event by someone other than the caller fails with
the RoleTaken outcome and inserts nothing. -/
theorem claim_C2_unique_role_invariant :
    (∀ (roles : List Role) (ops : List Op),
      (roles.map Role.role_id).Nodup →
      ∀ r ∈ roles, r.is_uniq = true →
      ∀ e : Nat,
        ((runOps roles ops).filter
          (fun v => v.role_id == r.role_id && v.event_id == e)).length ≤ 1) ∧
    (∀ (roles : List Role) (store : List Volunteer) (ierr : Option String)
        (role_text : String) (user_id event_id : Nat) (role : Role),
      roles.find? (fun r => r.role_full_name == role_text) = some role →
      role.is_uniq = true →
      (¬ ∃ v ∈ store, v.user_id = user_id ∧ v.role_id = role.role_id ∧
        v.event_id = event_id) →
      (∃ v ∈ store, v.role_id = role.role_id ∧ v.event_id = event_id ∧
        v.user_id ≠ user_id) →
      assignOutcome roles store ierr role_text user_id event_id = (.roleTaken, store)) := by
  constructor
  · intro roles ops hN r hr hu e
    exact uniq_inv_foldl roles hN ops [] (by simp) r hr hu e
  · intro roles store ierr rt u e role hfind hu hnodup htaken
    have hdup : store.any (fun v =>
        v.user_id == u && v.role_id == role.role_id && v.event_id == e) = false := by
      rw [List.any_eq_false]
      intro v hv
      intro hcontra
      simp only [Bool.and_eq_true, beq_iff_eq] at hcontra
      exact hnodup ⟨v, hv, hcontra.1.1, hcontra.1.2, hcontra.2⟩
    have hany : store.any
        (fun v => v.role_id == role.role_id && v.event_id == e) = true := by
      rw [List.any_eq_true]
      obtain ⟨v, hv, h1, h2, _⟩ := htaken
      exact ⟨v, hv, by simp [h1, h2]⟩
    exact assignOutcome_of_taken hfind hdup (by simp [hu, hany])

/-- Witness for C2: a four-operation history keeps the unique coordinator
role at a single assignment, and a take-over attempt is refused. -/
theorem claim_C2_unique_role_invariant_witness :
    ((runOps sampleRoles
        [.assign ("Координатор волонтеров") 1 1 none,
         .assign ("Координатор волонтеров") 2 1 none,
         .unassign 1 1,
         .assign ("Координатор волонтеров") 2 1 none]).filter
      (fun v => v.role_id == 1 && v.event_id == 1)).length ≤ 1 ∧
    assignOutcome sampleRoles [⟨2, 1, 1⟩] none ("Координатор волонтеров") 3 1 =
      (.roleTaken, [⟨2, 1, 1⟩]) :=
  ⟨claim_C2_unique_role_invariant.1 sampleRoles
      [.assign ("Координатор волонтеров") 1 1 none,
       .assign ("Координатор волонтеров") 2 1 none,
       .unassign 1 1,
       .assign ("Координатор волонтеров") 2 1 none]
      (by decide) ⟨1, "Координатор волонтеров", true, 1⟩ (by decide) rfl 1,
   claim_C2_unique_role_invariant.2 sampleRoles [⟨2, 1, 1⟩] none
      ("Координатор волонтеров") 3 1 ⟨1, "Координатор волонтеров", true, 1⟩
      (by decide) rfl (by decide) (by decide)⟩

/-! ### The exclusion invariant (C3) -/

theorem remove_snd (store : List Volunteer) (u e : Nat) :
    (remove_volunteer_from_event store u e).2 =
      store.filter (fun v => !(v.event_id == e && v.user_id == u)) := rfl

theorem holdsName_of_filter {roles : List Role} {store : List Volunteer}
    {q : Volunteer → Bool} {u e : Nat} {n : String}
    (h : holdsName roles (store.filter q) u e n) : holdsName roles store u e n := by
  obtain ⟨v, hv, rest⟩ := h
  exact ⟨v, List.mem_of_mem_filter hv, rest⟩

theorem holdsName_append_singleton {roles : List Role} {store : List Volunteer}
    {x : Volunteer} {u e : Nat} {n : String} :
    holdsName roles (store ++ [x]) u e n ↔
      (holdsName roles store u e n ∨
        (x.user_id = u ∧ x.event_id = e ∧
          ∃ r ∈ roles, r.role_id = x.role_id ∧ r.role_full_name = n)) := by
  simp only [holdsName, List.mem_append, List.mem_singleton]
  constructor
  · rintro ⟨v, hv | hv, rest⟩
    · exact Or.inl ⟨v, hv, rest⟩
    · subst hv
      exact Or.inr rest
  · rintro (⟨v, hv, rest⟩ | hx)
    · exact ⟨v, Or.inl hv, rest⟩
    · exact ⟨x, Or.inr rfl, hx⟩

/-- If the exclusion loop found nothing, the user cannot already hold a
member of an exclusion list that also contains the requested role. -/
theorem no_new_conflict {roles : List Role} {store : List Volunteer} {u0 e0 : Nat}
    {rt n : String} {g : List String}
    (hg : g = exclusion1 ∨ g = exclusion2)
    (hconf : findConflict rt (conflictingRoles roles store u0 e0) = none)
    (hrtg : rt ∈ g) (hng : n ∈ g)
    (hold : holdsName roles store u0 e0 n) : False := by
  have hun : n ∈ exclusion1 ∨ n ∈ exclusion2 := by
    rcases hg with h | h
    · exact Or.inl (h ▸ hng)
    · exact Or.inr (h ▸ hng)
  have hmem : n ∈ conflictingRoles roles store u0 e0 :=
    mem_conflictingRoles.mpr ⟨hold, hun⟩
  obtain ⟨d, hd, _, _⟩ := findConflict_of_shared hg hrtg hmem hng
  rw [hconf] at hd
  exact Option.noConfusion hd

theorem excl_inv_step (roles : List Role) (hN : (roles.map Role.role_id).Nodup)
    (store : List Volunteer) (op : Op)
    (h : ∀ (u e : Nat) (g : List String), (g = exclusion1 ∨ g = exclusion2) →
      ∀ n1 ∈ g, ∀ n2 ∈ g, n1 ≠ n2 →
        ¬(holdsName roles store u e n1 ∧ holdsName roles store u e n2)) :
    ∀ (u e : Nat) (g : List String), (g = exclusion1 ∨ g = exclusion2) →
      ∀ n1 ∈ g, ∀ n2 ∈ g, n1 ≠ n2 →
        ¬(holdsName roles (applyOp roles store op) u e n1 ∧
          holdsName roles (applyOp roles store op) u e n2) := by
  intro u e g hg n1 hn1 n2 hn2 hne
  cases op with
  | unassign u0 e0 =>
      simp only [applyOp]
      rw [remove_snd]
      rintro ⟨h1, h2⟩
      exact h u e g hg n1 hn1 n2 hn2 hne
        ⟨holdsName_of_filter h1, holdsName_of_filter h2⟩
  | assign rt u0 e0 ierr =>
      rcases assignOutcome_store_cases roles store ierr rt u0 e0 with
        hcase | ⟨role, hfind, hdup, huniq, hconf, hie, hstore⟩
      · simp only [applyOp]
        rw [hcase]
        exact h u e g hg n1 hn1 n2 hn2 hne
      · simp only [applyOp]
        rw [hstore]
        rintro ⟨h1, h2⟩
        rw [holdsName_append_singleton] at h1 h2
        have hrtname : role.role_full_name = rt := by
          simpa using List.find?_some hfind
        have hrole_mem : role ∈ roles := List.mem_of_find?_eq_some hfind
        have hnew : ∀ m : String,
            ((⟨u0, role.role_id, e0⟩ : Volunteer).user_id = u ∧
             (⟨u0, role.role_id, e0⟩ : Volunteer).event_id = e ∧
             ∃ r ∈ roles, r.role_id = (⟨u0, role.role_id, e0⟩ : Volunteer).role_id ∧
               r.role_full_name = m) →
            u0 = u ∧ e0 = e ∧ m = rt := by
          rintro m ⟨hu, he, r, hrmem, hrid, hrname⟩
          have hre : r = role := List.inj_on_of_nodup_map hN hrmem hrole_mem hrid
          exact ⟨hu, he, by rw [← hrname, hre, hrtname]⟩
        rcases h1 with h1 | h1
        · rcases h2 with h2 | h2
          · exact h u e g hg n1 hn1 n2 hn2 hne ⟨h1, h2⟩
          · obtain ⟨hu, he, hn⟩ := hnew n2 h2
            subst hu
            subst he
            exact no_new_conflict hg hconf (hn ▸ hn2) hn1 h1
        · rcases h2 with h2 | h2
          · obtain ⟨hu, he, hn⟩ := hnew n1 h1
            subst hu
            subst he
            exact no_new_conflict hg hconf (hn ▸ hn1) hn2 h2
          · obtain ⟨_, _, hm1⟩ := hnew n1 h1
            obtain ⟨_, _, hm2⟩ := hnew n2 h2
            exact hne (hm1.trans hm2.symm)

theorem excl_inv_foldl (roles : List Role) (hN : (roles.map Role.role_id).Nodup) :
    ∀ (ops : List Op) (store : List Volunteer),
      (∀ (u e : Nat) (g : List String), (g = exclusion1 ∨ g = exclusion2) →
        ∀ n1 ∈ g, ∀ n2 ∈ g, n1 ≠ n2 →
          ¬(holdsName roles store u e n1 ∧ holdsName roles store u e n2)) →
      ∀ (u e : Nat) (g : List String), (g = exclusion1 ∨ g = exclusion2) →
        ∀ n1 ∈ g, ∀ n2 ∈ g, n1 ≠ n2 →
          ¬(holdsName roles (ops.foldl (applyOp roles) store) u e n1 ∧
            holdsName roles (ops.foldl (applyOp roles) store) u e n2) := by
  intro ops
  induction ops with
  | nil => intro store h; exact h
  | cons op rest ih =>
      intro store h
      exact ih (applyOp roles store op) (excl_inv_step roles hN store op h)

/-- Claim C3: from the empty store, after any sequence of assign/unassign
operations, no user holds two distinct members of one hardcoded exclusion
pair at the same event; and an assign call for a role of a pair whose other
member the user already holds (the earlier checks passing) fails with an
exclusion conflict whose reason names a specific conflicting role the user
holds — a role sharing a pair with the requested one and distinct from it —
and inserts nothing. -/
theorem claim_C3_exclusion_invariant :
    (∀ (roles : List Role) (ops : List Op),
      (roles.map Role.role_id).Nodup →
      ∀ (u e : Nat) (g : List String), (g = exclusion1 ∨ g = exclusion2) →
      ∀ n1 ∈ g, ∀ n2 ∈ g, n1 ≠ n2 →
        ¬(holdsName roles (runOps roles ops) u e n1 ∧
          holdsName roles (runOps roles ops) u e n2)) ∧
    (∀ (roles : List Role) (store : List Volunteer) (ierr : Option String)
        (role_text : String) (user_id event_id : Nat) (role : Role)
        (g : List String) (n : String),
      (roles.map Role.role_full_name).Nodup →
      roles.find? (fun r => r.role_full_name == role_text) = some role →
      store.any (fun v => v.user_id == user_id && v.role_id == role.role_id &&
        v.event_id == event_id) = false →
      (role.is_uniq && store.any (fun v => v.role_id == role.role_id &&
        v.event_id == event_id)) = false →
      (g = exclusion1 ∨ g = exclusion2) → role_text ∈ g → n ∈ g → n ≠ role_text →
      holdsName roles store user_id event_id n →
      ∃ c, assignOutcome roles store ierr role_text user_id event_id =
          (.exclusionConflict c, store) ∧
        (add_volunteer_to_event roles store ierr role_text user_id event_id).1 =
          (false, "Ты уже записан на позицию " ++ quoted c ++
            ", нельзя также записаться на " ++ quoted role_text) ∧
        holdsName roles store user_id event_id c ∧ c ≠ role_text ∧
        ((role_text ∈ exclusion1 ∧ c ∈ exclusion1) ∨
         (role_text ∈ exclusion2 ∧ c ∈ exclusion2))) := by
  constructor
  · intro roles ops hN u e g hg n1 hn1 n2 hn2 hne
    refine excl_inv_foldl roles hN ops [] ?_ u e g hg n1 hn1 n2 hn2 hne
    intro u' e' g' hg' m1 hm1 m2 hm2 hne'
    rintro ⟨⟨v, hv, _⟩, _⟩
    exact absurd hv (List.not_mem_nil v)
  · intro roles store ierr rt u e role g n hnames hfind hdup huniq hg hrtg hng hne hold
    have hun : n ∈ exclusion1 ∨ n ∈ exclusion2 := by
      rcases hg with h | h
      · exact Or.inl (h ▸ hng)
      · exact Or.inr (h ▸ hng)
    have hmem : n ∈ conflictingRoles roles store u e :=
      mem_conflictingRoles.mpr ⟨hold, hun⟩
    obtain ⟨d, hdconf, hdmem, hdshare⟩ := findConflict_of_shared hg hrtg hmem hng
    have hout : assignOutcome roles store ierr rt u e = (.exclusionConflict d, store) :=
      assignOutcome_of_conflict hfind hdup huniq hdconf
    have hdprops := mem_conflictingRoles.mp hdmem
    have hrtname : role.role_full_name = rt := by
      simpa using List.find?_some hfind
    have hdne : d ≠ rt := by
      intro hd
      subst hd
      obtain ⟨v, hv, hvu, hve, r, hrmem, hrid, hrname⟩ := hdprops.1
      have hre : r = role :=
        List.inj_on_of_nodup_map hnames hrmem (List.mem_of_find?_eq_some hfind)
          (by rw [hrname, hrtname])
      rw [List.any_eq_false] at hdup
      have hv2 := hdup v hv
      simp only [Bool.and_eq_true, beq_iff_eq] at hv2
      exact hv2 ⟨⟨hvu, by rw [← hrid, hre]⟩, hve⟩
    refine ⟨d, hout, ?_, hdprops.1, hdne, hdshare⟩
    simp [add_volunteer_to_event, hout, outcomeMessage]

/-- Witness for C3: signing up for the stopwatch after the scanner at one
event is refused with a reason naming the scanner, and no two-member
history ever yields both roles at once. -/
theorem claim_C3_exclusion_invariant_witness :
    (¬(holdsName sampleRoles
        (runOps sampleRoles
          [.assign ("⏱️ Секундомер") 1 1 none,
           .assign ("📱 Сканер штрих-кодов") 1 1 none]) 1 1 ("⏱️ Секундомер") ∧
       holdsName sampleRoles
        (runOps sampleRoles
          [.assign ("⏱️ Секундомер") 1 1 none,
           .assign ("📱 Сканер штрих-кодов") 1 1 none]) 1 1 ("📱 Сканер штрих-кодов"))) ∧
    (∃ c, assignOutcome sampleRoles [⟨1, 4, 1⟩] none ("⏱️ Секундомер") 1 1 =
        (.exclusionConflict c, [⟨1, 4, 1⟩]) ∧
      (add_volunteer_to_event sampleRoles [⟨1, 4, 1⟩] none ("⏱️ Секундомер") 1 1).1 =
        (false, "Ты уже записан на позицию " ++ quoted c ++
          ", нельзя также записаться на " ++ quoted ("⏱️ Секундомер")) ∧
      holdsName sampleRoles [⟨1, 4, 1⟩] 1 1 c ∧ c ≠ "⏱️ Секундомер" ∧
      (("⏱️ Секундомер" ∈ exclusion1 ∧ c ∈ exclusion1) ∨
       ("⏱️ Секундомер" ∈ exclusion2 ∧ c ∈ exclusion2))) :=
  ⟨claim_C3_exclusion_invariant.1 sampleRoles
      [.assign ("⏱️ Секундомер") 1 1 none,
       .assign ("📱 Сканер штрих-кодов") 1 1 none]
      (by decide) 1 1 exclusion1 (Or.inl rfl)
      ("⏱️ Секундомер") (by decide) ("📱 Сканер штрих-кодов") (by decide) (by decide),
   claim_C3_exclusion_invariant.2 sampleRoles [⟨1, 4, 1⟩] none ("⏱️ Секундомер") 1 1
      ⟨3, "⏱️ Секундомер", false, 3⟩ exclusion1 ("📱 Сканер штрих-кодов")
      (by decide) (by decide) (by decide) (by decide) (Or.inl rfl)
      (by decide) (by decide) (by decide) (by unfold holdsName; decide)⟩

/-! ### The roster projection (C9) -/

theorem filter_key_length_le_one {α : Type} (f : α → Nat) {l : List α}
    (h : (l.map f).Nodup) (k : Nat) :
    (l.filter (fun x => f x == k)).length ≤ 1 := by
  induction l with
  | nil => simp
  | cons a l ih =>
      rw [List.map_cons, List.nodup_cons] at h
      rw [List.filter_cons]
      by_cases hk : f a = k
      · have hnil : l.filter (fun x => f x == k) = [] := by
          rw [List.filter_eq_nil_iff]
          intro b hb
          simp only [beq_iff_eq]
          intro hbk
          exact h.1 (by rw [hk, ← hbk]; exact List.mem_map_of_mem f hb)
        simp [hk, hnil]
      · have : (f a == k) = false := by simpa using hk
        rw [this]
        simpa using ih h.2

theorem flatMap_eq_map {α β : Type} {l : List α} {f : α → List β} {g : α → β}
    (h : ∀ x ∈ l, f x = [g x]) : l.flatMap f = l.map g := by
  induction l with
  | nil => rfl
  | cons a l ih =>
      rw [List.flatMap_cons, List.map_cons, h a (List.mem_cons_self a l),
        ih (fun x hx => h x (List.mem_cons_of_mem a hx))]
      rfl

/-- When a role has at most one assignee at the event and user ids are
unique, the LEFT JOIN contributes exactly one row for it, and that row is
`rosterRowFor`. -/
theorem rosterRowsForRole_single (users : List UserRow) (store : List Volunteer)
    (event_ids : List Nat) (r : Role)
    (husers : (users.map UserRow.user_id).Nodup)
    (hone : (store.filter (fun v => v.role_id == r.role_id &&
      event_ids.contains v.event_id)).length ≤ 1) :
    rosterRowsForRole users store event_ids r = [rosterRowFor users store event_ids r] := by
  unfold rosterRowsForRole rosterRowFor
  cases hfs : store.filter (fun v =>
      v.role_id == r.role_id && event_ids.contains v.event_id) with
  | nil => simp
  | cons v vs =>
      have hvs : vs = [] := by
        rw [hfs] at hone
        simp only [List.length_cons, Nat.succ_le_succ_iff, Nat.le_zero] at hone
        exact List.length_eq_zero.mp hone
      subst hvs
      simp only [List.flatMap_cons, List.flatMap_nil, List.append_nil, List.head?_cons]
      cases hus : users.filter (fun u => u.user_id == v.user_id) with
      | nil => simp
      | cons u us =>
          have hus0 : us = [] := by
            have hle := filter_key_length_le_one UserRow.user_id husers v.user_id
            rw [hus] at hle
            simp only [List.length_cons, Nat.succ_le_succ_iff, Nat.le_zero] at hle
            exact List.length_eq_zero.mp hle
          subst hus0
          simp

/-- Counterexample to claim C9: a catalogue of one (non-unique) role with
two committed assignments yields two roster rows for that single role — the
projection emits one row per assignment, not one per catalogued role. -/
theorem claim_C9_counterexample :
    get_event_data [⟨1, "Маршал", false, 1⟩]
        [⟨10, 1, 1⟩, ⟨11, 1, 1⟩]
        [⟨10, some ("Анна"), some ("@a")⟩, ⟨11, some ("Борис"), some ("@b")⟩]
        [1] =
      some [⟨1, "Маршал", "Анна", some ("@a")⟩, ⟨1, "Маршал", "Борис", some ("@b")⟩] ∧
    ([(⟨1, "Маршал", false, 1⟩ : Role)]).length = 1 := by
  constructor
  · have h1 : ([⟨1, "Маршал", false, 1⟩] : List Role).mergeSort
        (fun a b => decide (a.sort_id ≤ b.sort_id)) = [⟨1, "Маршал", false, 1⟩] := by
      simp
    simp only [get_event_data, h1]
    rfl
  · rfl

/-- Claim C9 as amended: when every catalogued role has at most one
assignee at the event (and user ids are unique keys), the projection
returns exactly one entry per catalogued Role — unfilled roles included,
with an empty assignee name — ordered by the catalogue sort order, each
filled role showing the display name of its committed assignee; in general
a role appears once per assignment.  The projection is a pure read: it
takes the store as a value and returns only the derived rows. -/
theorem claim_C9_roster_projection :
    ∀ (roles : List Role) (store : List Volunteer) (users : List UserRow)
      (event_ids : List Nat),
      roles ≠ [] →
      (users.map UserRow.user_id).Nodup →
      (∀ r ∈ roles, (store.filter (fun v => v.role_id == r.role_id &&
        event_ids.contains v.event_id)).length ≤ 1) →
      get_event_data roles store users event_ids =
        some ((roles.mergeSort (fun a b => decide (a.sort_id ≤ b.sort_id))).map
          (rosterRowFor users store event_ids)) := by
  intro roles store users event_ids hne husers hone
  have hperm := List.mergeSort_perm roles (fun a b => decide (a.sort_id ≤ b.sort_id))
  have hflat : (roles.mergeSort (fun a b => decide (a.sort_id ≤ b.sort_id))).flatMap
      (rosterRowsForRole users store event_ids) =
      (roles.mergeSort (fun a b => decide (a.sort_id ≤ b.sort_id))).map
        (rosterRowFor users store event_ids) :=
    flatMap_eq_map (fun r hr =>
      rosterRowsForRole_single users store event_ids r husers
        (hone r (hperm.mem_iff.mp hr)))
  show (if ((roles.mergeSort (fun a b => decide (a.sort_id ≤ b.sort_id))).flatMap
      (rosterRowsForRole users store event_ids)).isEmpty then none
    else some ((roles.mergeSort (fun a b => decide (a.sort_id ≤ b.sort_id))).flatMap
      (rosterRowsForRole users store event_ids))) = _
  rw [hflat]
  have hnonempty : ((roles.mergeSort (fun a b => decide (a.sort_id ≤ b.sort_id))).map
      (rosterRowFor users store event_ids)).isEmpty = false := by
    rw [List.isEmpty_eq_false]
    intro hcontra
    have : roles.length = 0 := by
      have hlen := hperm.length_eq
      have : (roles.mergeSort (fun a b => decide (a.sort_id ≤ b.sort_id))).length = 0 := by
        have := congrArg List.length hcontra
        simpa using this
      omega
    exact hne (List.length_eq_zero.mp this)
  rw [hnonempty]
  simp

/-- Witness for the amended C9: the full sample catalogue with two
assignments projects to one row per role in sort order. -/
theorem claim_C9_roster_projection_witness :
    get_event_data sampleRoles [⟨10, 1, 1⟩, ⟨11, 2, 1⟩]
        [⟨10, some ("Анна"), some ("@a")⟩, ⟨11, some ("Борис"), none⟩] [1] =
      some ((sampleRoles.mergeSort (fun a b => decide (a.sort_id ≤ b.sort_id))).map
        (rosterRowFor [⟨10, some ("Анна"), some ("@a")⟩, ⟨11, some ("Борис"), none⟩]
          [⟨10, 1, 1⟩, ⟨11, 2, 1⟩] [1])) :=
  claim_C9_roster_projection sampleRoles [⟨10, 1, 1⟩, ⟨11, 2, 1⟩]
    [⟨10, some ("Анна"), some ("@a")⟩, ⟨11, some ("Борис"), none⟩] [1]
    (by decide) (by decide) (by decide)

end ParkRun
